import Mathlib

/-!
Verification of the Book-Library REST API (Express + Mongoose).

This file shallowly embeds the data model (`models/author.js`, `models/book.js`),
the route-level request validators (`routes/books.js`), the books controller
(the author-count-tracking variant, plus the plain list handler of
`controllers/booksController.js`) and the health endpoint of `server.js`.

Conventions of the embedding:
* MongoDB ObjectIds, ISBNs and all other strings are Lean `String`s.
* Timestamps are `Nat` (milliseconds since epoch; only ordering matters).
* A database state is the pair of the `authors` and `books` collections,
  each a plain list of documents.
* Each HTTP handler is a pure function from the database state and the
  (already JSON-parsed) request to a result value plus the new database
  state; the result constructors are mapped to HTTP status codes by
  explicit `…Status` functions.
* Request bodies are records of `Option` fields (a `none` field is a key
  absent from the JSON body).
-/

namespace BookLibrary

/-! ## String helpers (JS semantics) -/

/-- Characters removed by the controller's `replace(/[-\s]/g, '')`:
the hyphen together with the common JavaScript whitespace class. -/
def isStrippedChar (c : Char) : Bool :=
  c = '-' || c = ' ' || c = '\t' || c = '\n' || c = '\r' || c = '\x0b' || c = '\x0c'

/-- `req.body.isbn.replace(/[-\s]/g, '')` — ISBN normalization from the
books controller (applied on create and update when an isbn is present). -/
def normalizeIsbn (s : String) : String :=
  String.mk (s.toList.filter (fun c => !(isStrippedChar c)))

/-- JS whitespace characters (the `\s` class, common cases). -/
def isJsSpace (c : Char) : Bool :=
  c = ' ' || c = '\t' || c = '\n' || c = '\r' || c = '\x0b' || c = '\x0c'

/-- `String.prototype.trim` (the sanitizer `.trim()` used by the
express-validator chains). -/
def jsTrim (s : String) : String :=
  String.mk ((s.toList.dropWhile isJsSpace).reverse.dropWhile isJsSpace).reverse

/-- `p` is a leading segment of `l` (used to model `startsWith`). -/
def leadsWith : List Char → List Char → Bool
  | [], _ => true
  | _ :: _, [] => false
  | a :: as, b :: bs => a = b && leadsWith as bs

/-- `String.prototype.startsWith`. -/
def strLeads (p s : String) : Bool := leadsWith p.toList s.toList

/-- `needle` occurs contiguously inside `hay` (substring occurrence). -/
def occursIn (needle : List Char) : List Char → Bool
  | [] => needle.isEmpty
  | c :: rest => leadsWith needle (c :: rest) || occursIn needle rest

/-- Case-insensitive substring containment: the model of the MongoDB filter
`{ $regex: q, $options: 'i' }` for a regex-literal query `q`. -/
def isSubstrCI (q s : String) : Bool :=
  occursIn (q.toList.map Char.toLower) (s.toList.map Char.toLower)

/-- The regex `^\d{10}(\d{3})?$` shared by `bookSchema.isbn` and the route
validator `body('isbn').matches(...)`: exactly 10 or 13 decimal digits. -/
def isbnShape (s : String) : Bool :=
  s.toList.all Char.isDigit && (s.length = 10 || s.length = 13)

/-- validator.js `isMongoId`: a 24-character hexadecimal string
(`param('id').isMongoId()`, `body('author').isMongoId()`). -/
def isMongoId (s : String) : Bool :=
  s.length = 24 &&
    s.toList.all (fun c => c.isDigit || ('a' ≤ c && c ≤ 'f') || ('A' ≤ c && c ≤ 'F'))

/-- Strings the mongoose ObjectId constructor accepts: the canonical
24-hex form, or the legacy 12-byte character form.  `findById` on any other
string throws a `CastError`. -/
def isCastableId (s : String) : Bool := isMongoId s || s.length = 12

/-- JS truthiness of an optional string (`if (req.body.author) …`):
an absent field and the empty string are both falsy. -/
def jsTruthy : Option String → Option String
  | none => none
  | some s => if s = "" then none else some s

/-! ## Data model (`models/author.js`, `models/book.js`) -/

/-- An `Author` document.  The schema declares firstName, lastName,
nationality, birthDate, deathDate, biography, website, genres, awards and
createdAt — and, crucially, no `bookCount` path.  `bookCount` is carried
here as an `Option Int` so that its absence from every document written
through this API can be stated; mongoose strict mode (the default) strips
the controller's `$inc: { bookCount: … }` updates, so nothing ever sets it. -/
structure Author where
  id : String
  firstName : String
  lastName : String
  nationality : String
  birthDate : Nat
  deathDate : Option Nat := none
  biography : Option String := none
  website : Option String := none
  genres : List String := []
  awards : List String := []
  bookCount : Option Int := none
  createdAt : Nat := 0
deriving Repr, DecidableEq

/-- A `Book` document (`models/book.js`). -/
structure Book where
  id : String
  title : String
  author : String
  isbn : String
  genre : String
  publicationYear : Int
  publisher : String
  pageCount : Int
  language : String := "English"
  description : Option String := none
  coverImageUrl : Option String := none
  availableCopies : Int := 1
  createdAt : Nat
  updatedAt : Nat
deriving Repr, DecidableEq

/-- The database state: the `authors` and `books` collections. -/
structure DB where
  authors : List Author
  books : List Book
deriving Repr, DecidableEq

/-- Number of Book documents whose `author` field references `aid`. -/
def refCount (books : List Book) (aid : String) : Nat :=
  (books.filter (fun b => b.author = aid)).length

/-- The genre enum shared by `bookSchema.genre` and the route validator. -/
def genreEnum : List String :=
  ["Fiction", "Non-Fiction", "Science Fiction", "Fantasy", "Mystery",
   "Biography", "History", "Self-Help", "Other"]

/-! ## Request bodies and the route validator (`routes/books.js`) -/

/-- A JSON request body for POST /books and PUT /books/:id.
A `none` field is a key absent from the body. -/
structure BookBody where
  title : Option String := none
  author : Option String := none
  isbn : Option String := none
  genre : Option String := none
  publicationYear : Option Int := none
  publisher : Option String := none
  pageCount : Option Int := none
  language : Option String := none
  description : Option String := none
  coverImageUrl : Option String := none
  availableCopies : Option Int := none
deriving Repr, DecidableEq

/-- `body('title').notEmpty().trim().isLength({ min: 2 })`:
non-empty as submitted, and at least 2 characters once trimmed. -/
def checkTitle : Option String → Bool
  | none => false
  | some t => !(t = "") && 2 ≤ (jsTrim t).length

/-- `body('author').isMongoId()`. -/
def checkAuthorField : Option String → Bool
  | none => false
  | some a => isMongoId a

/-- `body('isbn').notEmpty().matches(/^\d{10}(\d{3})?$/)`. -/
def checkIsbnField : Option String → Bool
  | none => false
  | some s => !(s = "") && isbnShape s

/-- `body('genre').isIn([...])`. -/
def checkGenre : Option String → Bool
  | none => false
  | some g => genreEnum.contains g

/-- `body('publicationYear').isInt({ min: 1000, max: currentYear })`. -/
def checkYear (year : Int) : Option Int → Bool
  | none => false
  | some y => 1000 ≤ y && y ≤ year

/-- `body('publisher').notEmpty().trim()`. -/
def checkPublisher : Option String → Bool
  | none => false
  | some p => !(p = "")

/-- `body('pageCount').isInt({ min: 1 })`. -/
def checkPageCount : Option Int → Bool
  | none => false
  | some n => 1 ≤ n

/-- `body('description').optional().isLength({ max: 1000 })`. -/
def checkDescription : Option String → Bool
  | none => true
  | some d => d.length ≤ 1000

/-- `body('coverImageUrl').optional().custom(...)`: empty, relative
(starting with `/`), or an absolute http(s) URL. -/
def checkCover : Option String → Bool
  | none => true
  | some v => v = "" || strLeads "/" v || strLeads "http://" v || strLeads "https://" v

/-- `body('availableCopies').isInt({ min: 0 })`. -/
def checkCopies : Option Int → Bool
  | none => false
  | some n => 0 ≤ n

/-- The whole `validateBook` chain of `routes/books.js` (the result of
`validationResult(req).isEmpty()`); `year` is the current year used by the
`publicationYear` bound. -/
def validateBookOk (b : BookBody) (year : Int) : Bool :=
  checkTitle b.title && checkAuthorField b.author && checkIsbnField b.isbn &&
  checkGenre b.genre && checkYear year b.publicationYear &&
  checkPublisher b.publisher && checkPageCount b.pageCount &&
  checkDescription b.description && checkCover b.coverImageUrl &&
  checkCopies b.availableCopies

/-- The `.trim()` sanitizers of the `validateBook` chain mutate
`req.body` in place (title, publisher and language are trimmed) before the
controller runs. -/
def sanitize (b : BookBody) : BookBody :=
  { b with
    title := b.title.map jsTrim
    publisher := b.publisher.map jsTrim
    language := b.language.map jsTrim }

/-! ## Mongoose document validation (schema of `models/book.js`) -/

/-- The `match: [/^https?:\/\/.+/, ...]` validator of `coverImageUrl`.
Mongoose `match` validators pass on the empty string (only `required`
rejects emptiness). -/
def coverOkSchema : Option String → Bool
  | none => true
  | some u => u = "" || (strLeads "http://" u && 7 < u.length) ||
      (strLeads "https://" u && 8 < u.length)

/-- Full-document mongoose validation, as run by `Book.create`: the
`required`, `minlength`/`maxlength`, `min`/`max`, `enum` and `match`
constraints of `bookSchema`.  Values arrive already trimmed by the route
sanitizers, so the schema-level `trim: true` is the identity here. -/
def bookSchemaOk (b : Book) (year : Int) : Bool :=
  !(b.title = "") && 2 ≤ b.title.length &&
  !(b.author = "") &&
  !(b.isbn = "") && isbnShape b.isbn &&
  genreEnum.contains b.genre &&
  1000 ≤ b.publicationYear && b.publicationYear ≤ year &&
  !(b.publisher = "") &&
  1 ≤ b.pageCount &&
  !(b.language = "") &&
  (match b.description with | none => true | some d => d.length ≤ 1000) &&
  coverOkSchema b.coverImageUrl &&
  0 ≤ b.availableCopies

/-- Path-wise mongoose validation, as run by `findByIdAndUpdate(...,
{ runValidators: true })`: only the paths present in the `$set` document
(the provided body fields) are validated.  The isbn reaching mongoose is
the controller-normalized value. -/
def updatePathsOk (b1 : BookBody) (year : Int) : Bool :=
  (match b1.title with | none => true | some t => !(t = "") && 2 ≤ t.length) &&
  (match b1.author with | none => true | some a => !(a = "")) &&
  (match b1.isbn with | none => true | some s => isbnShape (normalizeIsbn s)) &&
  (match b1.genre with | none => true | some g => genreEnum.contains g) &&
  (match b1.publicationYear with | none => true | some y => 1000 ≤ y && y ≤ year) &&
  (match b1.publisher with | none => true | some p => !(p = "")) &&
  (match b1.pageCount with | none => true | some n => 1 ≤ n) &&
  (match b1.language with | none => true | some l => !(l = "")) &&
  (match b1.description with | none => true | some d => d.length ≤ 1000) &&
  coverOkSchema b1.coverImageUrl &&
  (match b1.availableCopies with | none => true | some n => 0 ≤ n)

/-! ## Books controller (author-count-tracking variant)

The controller issues `Author.findByIdAndUpdate(..., { $inc: { bookCount:
± 1 } })` after a successful create/delete and around an author
reassignment on update.  `authorSchema` declares no `bookCount` path, and
mongoose strict mode (the default) silently strips unknown paths from
update documents, so these calls modify no author field tracked here (the
only observable effect is a refresh of that author's auto `updatedAt`
timestamp, which the model does not record).  The `authors` component of
the state is therefore unchanged by every book mutation. -/

/-- Result of `createBook` (`POST /books`), with one constructor per
response the handler can produce. -/
inductive CreateResult where
  /-- 400, `validationResult(req)` non-empty (route validator failed) -/
  | validationError
  /-- 400, `Author not found` -/
  | authorNotFound
  /-- 400, mongoose `ValidationError` from `Book.create` -/
  | schemaError
  /-- 400, duplicate key (E11000) naming the offending field -/
  | duplicate (field : String)
  /-- 201, book created -/
  | created (book : Book)
deriving Repr, DecidableEq

/-- HTTP status of each `createBook` outcome. -/
def createStatus : CreateResult → Nat
  | CreateResult.validationError => 400
  | CreateResult.authorNotFound => 400
  | CreateResult.schemaError => 400
  | CreateResult.duplicate _ => 400
  | CreateResult.created _ => 201

/-- The Book document built by `Book.create(req.body)`: body fields (the
isbn already normalized by the controller; `normalizeIsbn` is a no-op on
an absent/empty isbn, matching the `if (req.body.isbn)` guard), schema
defaults for `language` and `availableCopies`, and the `timestamps`
fields. -/
def mkBook (b1 : BookBody) (newId : String) (now : Nat) : Book :=
  { id := newId
    title := b1.title.getD ""
    author := b1.author.getD ""
    isbn := normalizeIsbn (b1.isbn.getD "")
    genre := b1.genre.getD ""
    publicationYear := b1.publicationYear.getD 0
    publisher := b1.publisher.getD ""
    pageCount := b1.pageCount.getD 0
    language := b1.language.getD "English"
    description := b1.description
    coverImageUrl := b1.coverImageUrl
    availableCopies := b1.availableCopies.getD 1
    createdAt := now
    updatedAt := now }

/-- `Book.create`: mongoose document validation, then the insert, which
the unique index on `isbn` rejects when another document already stores
the same isbn. -/
def insertBook (db : DB) (b1 : BookBody) (newId : String) (now : Nat) (year : Int) :
    CreateResult × DB :=
  if bookSchemaOk (mkBook b1 newId now) year then
    if db.books.any (fun b => b.isbn = (mkBook b1 newId now).isbn) then
      (CreateResult.duplicate "isbn", db)
    else
      (CreateResult.created (mkBook b1 newId now),
       { db with books := db.books ++ [mkBook b1 newId now] })
  else (CreateResult.schemaError, db)

/-- `POST /books`: the route validator, then the controller — author
existence check (`if (req.body.author)`), isbn normalization,
`Book.create`, and the (strict-mode-stripped) `$inc` of the author's
`bookCount`. -/
def createBook (db : DB) (body : BookBody) (newId : String) (now : Nat) (year : Int) :
    CreateResult × DB :=
  if validateBookOk body year then
    match jsTruthy body.author with
    | some aid =>
        if db.authors.all (fun a => !(a.id = aid)) then (CreateResult.authorNotFound, db)
        else insertBook db (sanitize body) newId now year
    | none => insertBook db (sanitize body) newId now year
  else (CreateResult.validationError, db)

/-- Result of `getBookById` (`GET /books/:id`). -/
inductive GetResult where
  /-- 400, `Invalid book ID format` (CastError) -/
  | castError
  /-- 404, `Book not found` -/
  | notFound
  /-- 200 with the book -/
  | ok (book : Book)
deriving Repr, DecidableEq

/-- HTTP status of each `getBookById` outcome. -/
def getStatus : GetResult → Nat
  | GetResult.castError => 400
  | GetResult.notFound => 404
  | GetResult.ok _ => 200

/-- `GET /books/:id`.  The route attaches `validateObjectId`, but the
handler never consults `validationResult`, so the 400 on a malformed id
comes from the `CastError` thrown by `findById`. -/
def getBookById (db : DB) (i : String) : GetResult :=
  if isCastableId i then
    match db.books.find? (fun b => b.id = i) with
    | none => GetResult.notFound
    | some b => GetResult.ok b
  else GetResult.castError

/-- Result of `deleteBook` (`DELETE /books/:id`). -/
inductive DeleteResult where
  /-- 400, `Invalid book ID format` (CastError) -/
  | castError
  /-- 404, `Book not found` -/
  | notFound
  /-- 200, returns id/title/author of the removed book -/
  | deleted (book : Book)
deriving Repr, DecidableEq

/-- HTTP status of each `deleteBook` outcome. -/
def deleteStatus : DeleteResult → Nat
  | DeleteResult.castError => 400
  | DeleteResult.notFound => 404
  | DeleteResult.deleted _ => 200

/-- `DELETE /books/:id`: find the book, issue the (strict-mode-stripped)
`$inc: { bookCount: -1 }` on its author, then `findByIdAndDelete`. -/
def deleteBook (db : DB) (i : String) : DeleteResult × DB :=
  if isCastableId i then
    match db.books.find? (fun b => b.id = i) with
    | none => (DeleteResult.notFound, db)
    | some bk =>
        (DeleteResult.deleted bk,
         { db with books := db.books.filter (fun b => !(b.id = i)) })
  else (DeleteResult.castError, db)

/-- Result of `updateBook` (`PUT /books/:id`). -/
inductive UpdateResult where
  /-- 400, `validationResult(req)` non-empty (`validateObjectId` and
  `validateBook` both feed it, so a malformed id lands here too) -/
  | validationError
  /-- 404, `Book not found` -/
  | notFound
  /-- 400, `Author not found` (reassignment target does not exist) -/
  | authorNotFound
  /-- 400, mongoose `ValidationError` (`runValidators: true`) -/
  | schemaError
  /-- 400, duplicate key naming the offending field -/
  | duplicate (field : String)
  /-- 200, updated book -/
  | updated (book : Book)
deriving Repr, DecidableEq

/-- HTTP status of each `updateBook` outcome. -/
def updateStatus : UpdateResult → Nat
  | UpdateResult.validationError => 400
  | UpdateResult.notFound => 404
  | UpdateResult.authorNotFound => 400
  | UpdateResult.schemaError => 400
  | UpdateResult.duplicate _ => 400
  | UpdateResult.updated _ => 200

/-- `if (req.body.author && req.body.author !== existingBook.author) {
if (!authorExists) return 400 }` — the reassignment existence guard. -/
def authorChangedGuard (db : DB) (b1 : BookBody) (old : Book) : Bool :=
  match jsTruthy b1.author with
  | some aid => !(aid = old.author) && db.authors.all (fun a => !(a.id = aid))
  | none => false

/-- `findByIdAndUpdate(id, { ...req.body, updatedAt: Date.now() },
{ new: true })`: every provided field overwrites, everything else is kept
from the existing document; the isbn is the controller-normalized value. -/
def applyUpdate (old : Book) (b1 : BookBody) (now : Nat) : Book :=
  { id := old.id
    title := b1.title.getD old.title
    author := b1.author.getD old.author
    isbn := (b1.isbn.map normalizeIsbn).getD old.isbn
    genre := b1.genre.getD old.genre
    publicationYear := b1.publicationYear.getD old.publicationYear
    publisher := b1.publisher.getD old.publisher
    pageCount := b1.pageCount.getD old.pageCount
    language := b1.language.getD old.language
    description := match b1.description with
      | some d => some d
      | none => old.description
    coverImageUrl := match b1.coverImageUrl with
      | some u => some u
      | none => old.coverImageUrl
    availableCopies := b1.availableCopies.getD old.availableCopies
    createdAt := old.createdAt
    updatedAt := now }

/-- `PUT /books/:id`: route validation (id and body), 404 on a missing
book, the author-reassignment guard, then the validated update; on an
author change the controller issues the two (strict-mode-stripped)
`$inc` calls. -/
def updateBook (db : DB) (i : String) (body : BookBody) (now : Nat) (year : Int) :
    UpdateResult × DB :=
  if isMongoId i && validateBookOk body year then
    match db.books.find? (fun b => b.id = i) with
    | none => (UpdateResult.notFound, db)
    | some old =>
        if authorChangedGuard db (sanitize body) old then
          (UpdateResult.authorNotFound, db)
        else if updatePathsOk (sanitize body) year then
          if db.books.any (fun b =>
              !(b.id = i) && b.isbn = (applyUpdate old (sanitize body) now).isbn) then
            (UpdateResult.duplicate "isbn", db)
          else
            (UpdateResult.updated (applyUpdate old (sanitize body) now),
             { db with books := db.books.map (fun b =>
                 if b.id = i then applyUpdate old (sanitize body) now else b) })
        else (UpdateResult.schemaError, db)
  else (UpdateResult.validationError, db)

/-! ## Listing, pagination and search -/

/-- Insertion step of the sort used to model MongoDB `sort(...)`:
`r b c = true` means `b` may come before `c`. -/
def insertOrd (r : Book → Book → Bool) (b : Book) : List Book → List Book
  | [] => [b]
  | c :: rest => if r b c then b :: c :: rest else c :: insertOrd r b rest

/-- Insertion sort on books by the given precedence test. -/
def sortOrd (r : Book → Book → Bool) : List Book → List Book
  | [] => []
  | b :: rest => insertOrd r b (sortOrd r rest)

/-- `sort({ createdAt: -1 })` — newest first. -/
def sortBooksDesc : List Book → List Book :=
  sortOrd (fun b c => decide (c.createdAt ≤ b.createdAt))

/-- `sort({ title: 1 })` — title ascending. -/
def sortBooksTitle : List Book → List Book :=
  sortOrd (fun b c => decide (b.title ≤ c.title))

/-- Parsed query string of `GET /books`: `{ page = 1, limit = 10, genre,
author } = req.query`. -/
structure ListQuery where
  page : Option Nat := none
  limit : Option Nat := none
  genre : Option String := none
  author : Option String := none
deriving Repr, DecidableEq

/-- `if (genre) filter.genre = genre; if (author) filter.author = author`. -/
def bookFilter (q : ListQuery) (b : Book) : Bool :=
  (match jsTruthy q.genre with | none => true | some g => b.genre = g) &&
  (match jsTruthy q.author with | none => true | some a => b.author = a)

/-- `Math.ceil(total / limit)` on non-negative integers. -/
def jsCeilDiv (total limit : Nat) : Nat :=
  if total % limit = 0 then total / limit else total / limit + 1

/-- The paginated response envelope of `getAllBooks`. -/
structure ListResponse where
  success : Bool
  count : Nat
  total : Nat
  totalPages : Nat
  currentPage : Nat
  data : List Book
deriving Repr, DecidableEq

/-- `GET /books` (paginated variant): filter, sort newest-first, then
`skip((page - 1) * limit).limit(limit)` (MongoDB applies skip before
limit regardless of chaining order), with
`total = countDocuments(filter)` and `totalPages = Math.ceil(total/limit)`. -/
def getAllBooks (db : DB) (q : ListQuery) : ListResponse :=
  { success := true
    count := (((sortBooksDesc (db.books.filter (bookFilter q))).drop
        ((q.page.getD 1 - 1) * q.limit.getD 10)).take (q.limit.getD 10)).length
    total := (db.books.filter (bookFilter q)).length
    totalPages := jsCeilDiv (db.books.filter (bookFilter q)).length (q.limit.getD 10)
    currentPage := q.page.getD 1
    data := ((sortBooksDesc (db.books.filter (bookFilter q))).drop
        ((q.page.getD 1 - 1) * q.limit.getD 10)).take (q.limit.getD 10) }

/-- The unpaginated response envelope of the plain
`controllers/booksController.js` list handler. -/
structure SimpleListResponse where
  success : Bool
  count : Nat
  data : List Book
deriving Repr, DecidableEq

/-- `GET /books` (plain `controllers/booksController.js` variant):
`Book.find().sort({ createdAt: -1 })`, no filter, no pagination. -/
def getAllBooksSimple (db : DB) : SimpleListResponse :=
  { success := true
    count := (sortBooksDesc db.books).length
    data := sortBooksDesc db.books }

/-- Result of `searchBooks` (`GET` search endpoint with `q`/`field`). -/
inductive SearchResult where
  /-- 400, `Search query required` (absent or empty `q`) -/
  | missingQuery
  /-- 200 with the matching books -/
  | ok (books : List Book)
deriving Repr, DecidableEq

/-- The book list carried by a search response (empty for the 400 case). -/
def searchData : SearchResult → List Book
  | SearchResult.missingQuery => []
  | SearchResult.ok l => l

/-- The `populate({ path: 'author', match: { $or: [firstName, lastName
regexes] } })` filter: the author's first or last name contains `q`
case-insensitively. -/
def authorMatches (q : String) (a : Author) : Bool :=
  isSubstrCI q a.firstName || isSubstrCI q a.lastName

/-- `searchBooks`: `title`/`genre` use a case-insensitive substring
regex, `isbn` uses exact equality against the normalized query,
`authorName` populates the author (null when the name does not match)
and keeps the books whose populated author is non-null; any other value
of `field` falls into the `default` branch, which matches on title.  The
`title`/`genre`/`isbn` branches sort by title; the `authorName` branch
returns before that sort. -/
def searchBooks (db : DB) (q field : String) : SearchResult :=
  if q = "" then SearchResult.missingQuery
  else if field = "authorName" then
    SearchResult.ok (db.books.filter (fun b =>
      match db.authors.find? (fun a => a.id = b.author) with
      | some a => authorMatches q a
      | none => false))
  else if field = "genre" then
    SearchResult.ok (sortBooksTitle (db.books.filter (fun b => isSubstrCI q b.genre)))
  else if field = "isbn" then
    SearchResult.ok (sortBooksTitle (db.books.filter (fun b => b.isbn = normalizeIsbn q)))
  else
    SearchResult.ok (sortBooksTitle (db.books.filter (fun b => isSubstrCI q b.title)))

/-! ## Health endpoint (`server.js`) -/

/-- `statusMessages[dbStatus] || 'unknown'`. -/
def statusMessage (s : Nat) : String :=
  if s = 0 then "disconnected"
  else if s = 1 then "connected"
  else if s = 2 then "connecting"
  else if s = 3 then "disconnecting"
  else "unknown"

/-- The parts of the `GET /health` response relevant here: the HTTP
status and the `database.status` / `database.readyState` body fields. -/
structure HealthResponse where
  status : Nat
  dbStatus : String
  readyState : Nat
deriving Repr, DecidableEq

/-- `GET /health`: `res.status(200).json({ ..., database: { status:
statusMessages[dbStatus] || 'unknown', readyState: dbStatus } })` — the
status code is hardcoded to 200 whatever the connection state. -/
def healthHandler (dbState : Nat) : HealthResponse :=
  { status := 200
    dbStatus := statusMessage dbState
    readyState := dbState }

/-! ## Concrete sample data (used by counterexamples and witnesses) -/

/-- A seeded author (cf. `seedData.js`); like every author document this
API ever writes, it carries no `bookCount` field. -/
def exAuthor : Author :=
  { id := "507f1f77bcf86cd799439011"
    firstName := "F. Scott"
    lastName := "Fitzgerald"
    nationality := "American"
    birthDate := 0 }

/-- A second author, for reassignment scenarios. -/
def exAuthor2 : Author :=
  { id := "507f1f77bcf86cd799439012"
    firstName := "Harper"
    lastName := "Lee"
    nationality := "American"
    birthDate := 0 }

/-- A stored book with the spec's example isbn, created at time 20. -/
def exBook1 : Book :=
  { id := "607f1f77bcf86cd799439001"
    title := "The Great Gatsby"
    author := "507f1f77bcf86cd799439011"
    isbn := "9780743273565"
    genre := "Fiction"
    publicationYear := 1925
    publisher := "Scribner"
    pageCount := 180
    availableCopies := 5
    createdAt := 20
    updatedAt := 20 }

/-- An older stored book, created at time 10. -/
def exBook2 : Book :=
  { id := "607f1f77bcf86cd799439002"
    title := "To Kill a Mockingbird"
    author := "507f1f77bcf86cd799439012"
    isbn := "9780061120084"
    genre := "Fiction"
    publicationYear := 1960
    publisher := "Lippincott"
    pageCount := 281
    availableCopies := 8
    createdAt := 10
    updatedAt := 10 }

/-- A database with one author and no books. -/
def exDb0 : DB := { authors := [exAuthor], books := [] }

/-- A database with two authors and one stored book. -/
def exDb1 : DB := { authors := [exAuthor, exAuthor2], books := [exBook1] }

/-- A two-book database (stored in neither creation order). -/
def exDb2 : DB := { authors := [exAuthor, exAuthor2], books := [exBook2, exBook1] }

/-- A fully valid POST body for a new book. -/
def exBody : BookBody :=
  { title := some "Brave New World"
    author := some "507f1f77bcf86cd799439011"
    isbn := some "9780060850524"
    genre := some "Fiction"
    publicationYear := some 1932
    publisher := some "Chatto"
    pageCount := some 311
    availableCopies := some 3 }

/-- The same body with the spec's hyphenated example isbn. -/
def exBodyHyphen : BookBody := { exBody with isbn := some "978-0-74-327356-5" }

/-- A body whose isbn, hyphenated, normalizes to the isbn stored by
`exBook1`. -/
def exBodyHyphenDup : BookBody := { exBody with isbn := some "978-0743273565" }

/-- A body whose isbn equals the stored isbn of `exBook1` verbatim. -/
def exBodyDup : BookBody := { exBody with isbn := some "9780743273565" }

/-- A valid PUT body for `exBook1` (author unchanged, new page count). -/
def exBodyUpd : BookBody :=
  { title := some "The Great Gatsby"
    author := some "507f1f77bcf86cd799439011"
    isbn := some "9780743273565"
    genre := some "Fiction"
    publicationYear := some 1925
    publisher := some "Scribner"
    pageCount := some 218
    availableCopies := some 4 }

/-! ## Frame specification for PUT /books/:id -/

/-- What a successful `PUT /books/:id` leaves behind: every field provided
in the (sanitizer-trimmed) request body overwrites the stored field with
the submitted value — the isbn verbatim, since validated isbns are pure
digits and normalization fixes them — `updatedAt` is refreshed, and every
field not provided (and every other book, and the authors collection) is
unchanged. -/
def updateFrameSpec (db : DB) (i : String) (body : BookBody) (now : Nat) (year : Int)
    (nb : Book) : Prop :=
  ∃ old, db.books.find? (fun b => b.id = i) = some old ∧
    (∀ v, body.title = some v → nb.title = jsTrim v) ∧
    (body.title = none → nb.title = old.title) ∧
    (∀ v, body.author = some v → nb.author = v) ∧
    (body.author = none → nb.author = old.author) ∧
    (∀ v, body.isbn = some v → nb.isbn = v) ∧
    (body.isbn = none → nb.isbn = old.isbn) ∧
    (∀ v, body.genre = some v → nb.genre = v) ∧
    (body.genre = none → nb.genre = old.genre) ∧
    (∀ v, body.publicationYear = some v → nb.publicationYear = v) ∧
    (body.publicationYear = none → nb.publicationYear = old.publicationYear) ∧
    (∀ v, body.publisher = some v → nb.publisher = jsTrim v) ∧
    (body.publisher = none → nb.publisher = old.publisher) ∧
    (∀ v, body.pageCount = some v → nb.pageCount = v) ∧
    (body.pageCount = none → nb.pageCount = old.pageCount) ∧
    (∀ v, body.language = some v → nb.language = jsTrim v) ∧
    (body.language = none → nb.language = old.language) ∧
    (∀ v, body.description = some v → nb.description = some v) ∧
    (body.description = none → nb.description = old.description) ∧
    (∀ v, body.coverImageUrl = some v → nb.coverImageUrl = some v) ∧
    (body.coverImageUrl = none → nb.coverImageUrl = old.coverImageUrl) ∧
    (∀ v, body.availableCopies = some v → nb.availableCopies = v) ∧
    (body.availableCopies = none → nb.availableCopies = old.availableCopies) ∧
    nb.updatedAt = now ∧ nb.createdAt = old.createdAt ∧ nb.id = old.id ∧
    (updateBook db i body now year).2.books =
      db.books.map (fun b => if b.id = i then nb else b) ∧
    (updateBook db i body now year).2.authors = db.authors

/-! # Lemmas -/

/-- A decimal digit is not one of the characters stripped by the
isbn normalization. -/
lemma isStrippedChar_eq_false_of_digit {c : Char} (h : c.isDigit = true) :
    isStrippedChar c = false := by
  by_contra hne
  rw [Bool.not_eq_false] at hne
  unfold isStrippedChar at hne
  simp only [Bool.or_eq_true, decide_eq_true_eq] at hne
  rcases hne with ((((((h1 | h1) | h1) | h1) | h1) | h1) | h1) <;>
    subst h1 <;> exact absurd h (by decide)

/-- A character stripped by the normalization is not a digit. -/
lemma not_digit_of_isStrippedChar {c : Char} (h : isStrippedChar c = true) :
    c.isDigit = false := by
  by_contra hne
  rw [Bool.not_eq_false] at hne
  rw [isStrippedChar_eq_false_of_digit hne] at h
  exact Bool.noConfusion h

/-- Normalization is the identity on strings of the isbn pattern (all
digits): stripping hyphens and whitespace removes nothing. -/
lemma normalizeIsbn_of_shape {s : String} (h : isbnShape s = true) :
    normalizeIsbn s = s := by
  unfold isbnShape at h
  simp only [Bool.and_eq_true] at h
  obtain ⟨hdig, _⟩ := h
  unfold normalizeIsbn
  have hfix : s.toList.filter (fun c => !(isStrippedChar c)) = s.toList := by
    apply List.filter_eq_self.mpr
    intro c hc
    have hcdig : c.isDigit = true := by
      have hall := List.all_eq_true.mp hdig c hc
      simpa using hall
    simp [isStrippedChar_eq_false_of_digit hcdig]
  rw [hfix]
  rfl

/-- Decomposition of a passing `validateBook` chain into its checks. -/
lemma validate_parts {b : BookBody} {year : Int} (h : validateBookOk b year = true) :
    checkTitle b.title = true ∧ checkAuthorField b.author = true ∧
    checkIsbnField b.isbn = true ∧ checkGenre b.genre = true ∧
    checkYear year b.publicationYear = true ∧ checkPublisher b.publisher = true ∧
    checkPageCount b.pageCount = true ∧ checkDescription b.description = true ∧
    checkCover b.coverImageUrl = true ∧ checkCopies b.availableCopies = true := by
  unfold validateBookOk at h
  simp only [Bool.and_eq_true] at h
  tauto

/-- A passing isbn check yields a present isbn of the digit pattern. -/
lemma isbn_of_check {o : Option String} (h : checkIsbnField o = true) :
    ∃ s, o = some s ∧ isbnShape s = true := by
  cases o with
  | none => exact absurd h (by simp [checkIsbnField])
  | some s =>
      refine ⟨s, rfl, ?_⟩
      unfold checkIsbnField at h
      simp only [Bool.and_eq_true] at h
      exact h.2

/-- A passing author check yields a present, well-formed author id. -/
lemma author_of_check {o : Option String} (h : checkAuthorField o = true) :
    ∃ a, o = some a ∧ isMongoId a = true := by
  cases o with
  | none => exact absurd h (by simp [checkAuthorField])
  | some a => exact ⟨a, rfl, h⟩

/-- A well-formed ObjectId string is non-empty. -/
lemma isMongoId_ne_empty {s : String} (h : isMongoId s = true) : ¬ s = "" := by
  intro he
  subst he
  exact absurd h (by decide)

/-- JS truthiness keeps a non-empty present string. -/
lemma jsTruthy_some {s : String} (h : ¬ s = "") : jsTruthy (some s) = some s := by
  simp [jsTruthy, h]

/-! ### Sorting lemmas -/

/-- Inserting permutes to consing. -/
lemma insertOrd_perm (r : Book → Book → Bool) (b : Book) (l : List Book) :
    (insertOrd r b l).Perm (b :: l) := by
  induction l with
  | nil => exact List.Perm.refl _
  | cons c rest ih =>
      unfold insertOrd
      split
      · exact List.Perm.refl _
      · exact (List.Perm.cons c ih).trans (List.Perm.swap b c rest)

/-- The model sort is a permutation of its input. -/
lemma sortOrd_perm (r : Book → Book → Bool) (l : List Book) :
    (sortOrd r l).Perm l := by
  induction l with
  | nil => exact List.Perm.refl _
  | cons b rest ih => exact (insertOrd_perm r b _).trans (List.Perm.cons b ih)

/-- Membership in an insertion. -/
lemma mem_insertOrd {r : Book → Book → Bool} {b y : Book} {l : List Book} :
    y ∈ insertOrd r b l ↔ y = b ∨ y ∈ l := by
  rw [(insertOrd_perm r b l).mem_iff, List.mem_cons]

/-- Membership in the sorted list. -/
lemma mem_sortOrd {r : Book → Book → Bool} {y : Book} {l : List Book} :
    y ∈ sortOrd r l ↔ y ∈ l :=
  (sortOrd_perm r l).mem_iff

/-- Inserting into a createdAt-descending list keeps it descending. -/
lemma insertOrd_pairwise_desc (b : Book) (l : List Book)
    (h : l.Pairwise fun x y => y.createdAt ≤ x.createdAt) :
    (insertOrd (fun x y => decide (y.createdAt ≤ x.createdAt)) b l).Pairwise
      fun x y => y.createdAt ≤ x.createdAt := by
  induction l with
  | nil => simp [insertOrd]
  | cons c rest ih =>
      rw [List.pairwise_cons] at h
      obtain ⟨hc, hrest⟩ := h
      unfold insertOrd
      by_cases hbc : c.createdAt ≤ b.createdAt
      · rw [if_pos (by simpa using hbc)]
        rw [List.pairwise_cons]
        refine ⟨?_, List.pairwise_cons.mpr ⟨hc, hrest⟩⟩
        intro y hy
        rcases List.mem_cons.mp hy with h1 | h2
        · subst h1; exact hbc
        · exact le_trans (hc y h2) hbc
      · rw [if_neg (by simpa using hbc)]
        rw [List.pairwise_cons]
        refine ⟨?_, ih hrest⟩
        intro y hy
        rcases mem_insertOrd.mp hy with h1 | h2
        · subst h1; exact le_of_lt (lt_of_not_le hbc)
        · exact hc y h2

/-- The `sort({ createdAt: -1 })` model really is createdAt-descending. -/
lemma sortBooksDesc_pairwise (l : List Book) :
    (sortBooksDesc l).Pairwise fun x y => y.createdAt ≤ x.createdAt := by
  induction l with
  | nil => simp [sortBooksDesc, sortOrd]
  | cons b rest ih => exact insertOrd_pairwise_desc b _ ih

/-! ### Ceiling-division lemma -/

/-- `Math.ceil(total / limit)` agrees with the usual integer formula. -/
lemma jsCeilDiv_eq (t l : Nat) (hl : 1 ≤ l) : jsCeilDiv t l = (t + l - 1) / l := by
  unfold jsCeilDiv
  rcases Nat.eq_zero_or_pos (t % l) with h0 | hpos
  · rw [if_pos h0]
    obtain ⟨q, hq⟩ := Nat.dvd_of_mod_eq_zero h0
    subst hq
    rw [Nat.mul_div_cancel_left q hl]
    have h1 : l * q + l - 1 = l * q + (l - 1) := by omega
    rw [h1, Nat.mul_add_div hl, Nat.div_eq_of_lt (by omega), Nat.add_zero]
  · rw [if_neg (by omega)]
    have hmod := Nat.mod_lt t hl
    have hdm := Nat.div_add_mod t l
    have h1 : t + l - 1 = l * (t / l + 1) + (t % l - 1) := by
      rw [Nat.mul_add, Nat.mul_one]; omega
    have h2 : (t % l - 1) / l = 0 := Nat.div_eq_of_lt (by omega)
    rw [h1, Nat.mul_add_div hl, h2, Nat.add_zero]

/-! ### Control-flow lemmas for the mutation handlers -/

/-- `Book.create` never touches the authors collection. -/
lemma insertBook_authors (db : DB) (b1 : BookBody) (newId : String) (now : Nat)
    (year : Int) : (insertBook db b1 newId now year).2.authors = db.authors := by
  unfold insertBook
  split
  · split <;> rfl
  · rfl

/-- `POST /books` leaves every author document unchanged: the `$inc` on
`bookCount` targets a path `authorSchema` does not declare and is
stripped by mongoose strict mode. -/
lemma createBook_authors (db : DB) (body : BookBody) (newId : String) (now : Nat)
    (year : Int) : (createBook db body newId now year).2.authors = db.authors := by
  unfold createBook
  split
  · split
    · split
      · rfl
      · exact insertBook_authors _ _ _ _ _
    · exact insertBook_authors _ _ _ _ _
  · rfl

/-- `DELETE /books/:id` leaves every author document unchanged (same
strict-mode stripping of the `$inc`). -/
lemma deleteBook_authors (db : DB) (i : String) :
    (deleteBook db i).2.authors = db.authors := by
  unfold deleteBook
  split
  · split <;> rfl
  · rfl

/-- `PUT /books/:id` leaves every author document unchanged, even on an
author reassignment (both `$inc` calls are stripped). -/
lemma updateBook_authors (db : DB) (i : String) (body : BookBody) (now : Nat)
    (year : Int) : (updateBook db i body now year).2.authors = db.authors := by
  unfold updateBook
  split
  · split
    · rfl
    · split
      · rfl
      · split
        · split <;> rfl
        · rfl
  · rfl

/-- Everything a successful `Book.create` implies: the created document
is `mkBook` of the body it received, mongoose validation passed, no
stored book already had the isbn, and the new state appends exactly that
document. -/
lemma insertBook_created {db : DB} {b1 : BookBody} {newId : String} {now : Nat}
    {year : Int} {nb : Book}
    (h : (insertBook db b1 newId now year).1 = CreateResult.created nb) :
    nb = mkBook b1 newId now ∧
    bookSchemaOk (mkBook b1 newId now) year = true ∧
    db.books.any (fun b => b.isbn = (mkBook b1 newId now).isbn) = false ∧
    (insertBook db b1 newId now year).2 =
      { db with books := db.books ++ [mkBook b1 newId now] } := by
  unfold insertBook at h ⊢
  split at h
  case isFalse hsch => exact absurd h (by simp)
  case isTrue hsch =>
    split at h
    case isTrue hdup => exact absurd h (by simp)
    case isFalse hdup =>
      have h3 : CreateResult.created (mkBook b1 newId now) = CreateResult.created nb := h
      injection h3 with h4
      have hdup2 : db.books.any (fun b => b.isbn = (mkBook b1 newId now).isbn) = false := by
        revert hdup
        cases db.books.any (fun b => b.isbn = (mkBook b1 newId now).isbn) <;> simp
      rw [if_pos hsch, if_neg hdup]
      exact ⟨h4.symm, hsch, hdup2, rfl⟩

/-- Everything a successful `POST /books` implies: the route validation
passed, the created document is `mkBook` of the sanitized body, mongoose
validation passed, no stored book already had the isbn, the new state
appends exactly that document, and (when an author id was given) the
author-existence guard found it. -/
lemma createBook_created {db : DB} {body : BookBody} {newId : String} {now : Nat}
    {year : Int} {nb : Book}
    (h : (createBook db body newId now year).1 = CreateResult.created nb) :
    validateBookOk body year = true ∧
    nb = mkBook (sanitize body) newId now ∧
    bookSchemaOk (mkBook (sanitize body) newId now) year = true ∧
    db.books.any (fun b => b.isbn = (mkBook (sanitize body) newId now).isbn) = false ∧
    (createBook db body newId now year).2 =
      { db with books := db.books ++ [mkBook (sanitize body) newId now] } ∧
    (∀ aid, jsTruthy body.author = some aid →
      db.authors.all (fun a => !(a.id = aid)) = false) := by
  unfold createBook at h ⊢
  split at h
  case isFalse hv => exact absurd h (by simp)
  case isTrue hv =>
    split at h
    case h_1 aid heq =>
      split at h
      case isTrue hall => exact absurd h (by simp)
      case isFalse hall =>
        obtain ⟨hnb, hsch, hdup2, hst⟩ := insertBook_created h
        have hall2 : db.authors.all (fun a => !(a.id = aid)) = false := by
          revert hall
          cases db.authors.all (fun a => !(a.id = aid)) <;> simp
        rw [if_pos hv, heq, if_neg hall]
        refine ⟨hv, hnb, hsch, hdup2, hst, ?_⟩
        intro aid2 heq2
        injection heq2 with heq3
        rw [heq3] at hall2
        exact hall2
    case h_2 heq =>
      obtain ⟨hnb, hsch, hdup2, hst⟩ := insertBook_created h
      rw [if_pos hv, heq]
      refine ⟨hv, hnb, hsch, hdup2, hst, ?_⟩
      intro aid2 heq2
      exact absurd heq2 (by simp)

/-- Everything a successful `PUT /books/:id` implies: route validation
passed, a stored book was found under the id, the response document is
`applyUpdate` of it, and the new state replaces exactly that book. -/
lemma updateBook_updated {db : DB} {i : String} {body : BookBody} {now : Nat}
    {year : Int} {nb : Book}
    (h : (updateBook db i body now year).1 = UpdateResult.updated nb) :
    (isMongoId i && validateBookOk body year) = true ∧
    ∃ old, db.books.find? (fun b => b.id = i) = some old ∧
      nb = applyUpdate old (sanitize body) now ∧
      (updateBook db i body now year).2 =
        { db with books := db.books.map (fun b =>
            if b.id = i then applyUpdate old (sanitize body) now else b) } := by
  unfold updateBook at h
  split at h
  case isFalse hv => exact absurd h (by simp)
  case isTrue hv =>
    split at h
    case h_1 hfind => exact absurd h (by simp)
    case h_2 old hfind =>
      split at h
      case isTrue hg => exact absurd h (by simp)
      case isFalse hg =>
        split at h
        case isFalse hsch => exact absurd h (by simp)
        case isTrue hsch =>
          split at h
          case isTrue hdup => exact absurd h (by simp)
          case isFalse hdup =>
            have h3 : UpdateResult.updated (applyUpdate old (sanitize body) now) =
                UpdateResult.updated nb := h
            injection h3 with h4
            have hrun : updateBook db i body now year =
                (UpdateResult.updated (applyUpdate old (sanitize body) now),
                 { db with books := db.books.map (fun b =>
                     if b.id = i then applyUpdate old (sanitize body) now else b) }) := by
              simp [updateBook, hv, hfind, hg, hsch, hdup]
            exact ⟨hv, old, hfind, h4.symm, by rw [hrun]⟩

/-- The duplicate-isbn path of `POST /books`: validated body, existing
author, schema-valid document, and an isbn collision produce the 400
`Duplicate Entry` naming `isbn`, with the database unchanged. -/
lemma createBook_dup {db : DB} {body : BookBody} (newId : String) (now : Nat)
    {year : Int} {aid : String}
    (hv : validateBookOk body year = true)
    (ha : body.author = some aid)
    (hex : ∃ a ∈ db.authors, a.id = aid)
    (hsch : bookSchemaOk (mkBook (sanitize body) newId now) year = true)
    (hdup : db.books.any (fun b => b.isbn = (mkBook (sanitize body) newId now).isbn) = true) :
    createBook db body newId now year = (CreateResult.duplicate "isbn", db) := by
  have hparts := validate_parts hv
  obtain ⟨a2, ha2, hmid⟩ := author_of_check hparts.2.1
  rw [ha] at ha2
  injection ha2 with ha3
  rw [← ha3] at hmid
  have heq : jsTruthy body.author = some aid := by
    rw [ha]; exact jsTruthy_some (isMongoId_ne_empty hmid)
  have hall : db.authors.all (fun a => !(a.id = aid)) = false := by
    obtain ⟨a0, hmem, hid⟩ := hex
    by_contra hne
    rw [Bool.not_eq_false] at hne
    have := List.all_eq_true.mp hne a0 hmem
    simp [hid] at this
  simp [createBook, insertBook, hv, heq, hall, hsch, hdup]

/-! # Claim theorems -/

/-- C1: the claim says `Author.bookCount` equals the number of Book
documents referencing the author and is incremented/decremented by the
Book mutations.  The code cannot maintain it: `authorSchema` declares no
`bookCount` path, so mongoose strict mode strips every `$inc: { bookCount:
… }` the controller issues.  This theorem exhibits the divergence: every
book mutation leaves the authors collection unchanged, and at the
concrete failing input (a book successfully created for `exAuthor`) one
book references the author while its `bookCount` field still does not
exist — instead of the claimed value 1. -/
theorem bookCount_not_maintained :
    (∀ (db : DB) (body : BookBody) (newId : String) (now : Nat) (year : Int),
        (createBook db body newId now year).2.authors = db.authors)
  ∧ (∀ (db : DB) (i : String), (deleteBook db i).2.authors = db.authors)
  ∧ (∀ (db : DB) (i : String) (body : BookBody) (now : Nat) (year : Int),
        (updateBook db i body now year).2.authors = db.authors)
  ∧ createStatus (createBook exDb0 exBody "607f1f77bcf86cd799439009" 30 2025).1 = 201
  ∧ refCount (createBook exDb0 exBody "607f1f77bcf86cd799439009" 30 2025).2.books
      exAuthor.id = 1
  ∧ (createBook exDb0 exBody "607f1f77bcf86cd799439009" 30 2025).2.authors = [exAuthor]
  ∧ exAuthor.bookCount = none :=
  ⟨createBook_authors, deleteBook_authors, updateBook_authors,
   by decide, by decide, by decide, rfl⟩

/-- C4: a POST /books whose body passes the route validator (so its
author field is a well-formed id) but whose author id matches no stored
Author fails with the 400 `Author not found` response, and the database
is unchanged (no Book is created). -/
theorem createBook_author_not_found (db : DB) (body : BookBody) (newId : String)
    (now : Nat) (year : Int) (aid : String)
    (hv : validateBookOk body year = true)
    (ha : body.author = some aid)
    (habs : ∀ a ∈ db.authors, ¬ a.id = aid) :
    createBook db body newId now year = (CreateResult.authorNotFound, db) ∧
    createStatus (createBook db body newId now year).1 = 400 := by
  have hparts := validate_parts hv
  obtain ⟨a2, ha2, hmid⟩ := author_of_check hparts.2.1
  rw [ha] at ha2
  injection ha2 with ha3
  rw [← ha3] at hmid
  have heq : jsTruthy body.author = some aid := by
    rw [ha]; exact jsTruthy_some (isMongoId_ne_empty hmid)
  have hall : db.authors.all (fun a => !(a.id = aid)) = true := by
    rw [List.all_eq_true]
    intro a hmem
    simpa using habs a hmem
  have hrun : createBook db body newId now year = (CreateResult.authorNotFound, db) := by
    simp [createBook, hv, heq, hall]
  exact ⟨hrun, by rw [hrun]; rfl⟩

/-- Witness for C4 at a concrete input: an author id that exists in no
document. -/
theorem createBook_author_not_found_witness :
    createBook exDb0 { exBody with author := some "507f1f77bcf86cd799439099" }
      "607f1f77bcf86cd799439009" 30 2025 = (CreateResult.authorNotFound, exDb0) :=
  (createBook_author_not_found exDb0 _ _ 30 2025 "507f1f77bcf86cd799439099"
    (by decide) rfl (by decide)).1

/-- C5: the GET /books envelope — `total` counts every book matching the
genre/author filter, `currentPage` echoes the page, `data` is the page-th
slice of `limit` books of the createdAt-descending listing, `count` is
its length, `totalPages = ceil(total/limit)`; and concretely, on a
two-book collection, `page=2&limit=1` returns exactly the second
(older) book with `totalPages = 2`. -/
theorem getAllBooks_pagination (db : DB) (q : ListQuery)
    (_hp : 1 ≤ q.page.getD 1) (hl : 1 ≤ q.limit.getD 10) :
    (getAllBooks db q).success = true
  ∧ (getAllBooks db q).total = (db.books.filter (bookFilter q)).length
  ∧ (getAllBooks db q).currentPage = q.page.getD 1
  ∧ (getAllBooks db q).data =
      ((sortBooksDesc (db.books.filter (bookFilter q))).drop
        ((q.page.getD 1 - 1) * q.limit.getD 10)).take (q.limit.getD 10)
  ∧ (getAllBooks db q).count = (getAllBooks db q).data.length
  ∧ (getAllBooks db q).totalPages =
      ((getAllBooks db q).total + q.limit.getD 10 - 1) / q.limit.getD 10
  ∧ getAllBooks exDb2 { page := some 2, limit := some 1 } =
      { success := true, count := 1, total := 2, totalPages := 2,
        currentPage := 2, data := [exBook2] } := by
  refine ⟨rfl, rfl, rfl, rfl, rfl, ?_, by decide⟩
  exact jsCeilDiv_eq _ _ hl

/-- Witness for C5: the claim's own concrete scenario, obtained by
applying the theorem at the two-book database. -/
theorem getAllBooks_pagination_witness :
    getAllBooks exDb2 { page := some 2, limit := some 1 } =
      { success := true, count := 1, total := 2, totalPages := 2,
        currentPage := 2, data := [exBook2] } :=
  (getAllBooks_pagination exDb2 { page := some 2, limit := some 1 }
    (by decide) (by decide)).2.2.2.2.2.2

/-- C6: GET /books/:id — a syntactically invalid id (rejected by the
ObjectId cast) yields 400, a well-formed id with no matching book yields
404, a match yields 200 with the book, and no path yields 500. -/
theorem getBookById_trichotomy (db : DB) (i : String) :
    (isCastableId i = false → getStatus (getBookById db i) = 400)
  ∧ (isCastableId i = true → db.books.find? (fun b => b.id = i) = none →
      getStatus (getBookById db i) = 404)
  ∧ (∀ b, isCastableId i = true → db.books.find? (fun b2 => b2.id = i) = some b →
      getBookById db i = GetResult.ok b ∧ getStatus (getBookById db i) = 200)
  ∧ ¬ getStatus (getBookById db i) = 500 := by
  refine ⟨?_, ?_, ?_, ?_⟩
  · intro hc
    simp [getBookById, hc, getStatus]
  · intro hc hf
    simp [getBookById, hc, hf, getStatus]
  · intro b hc hf
    have hok : getBookById db i = GetResult.ok b := by simp [getBookById, hc, hf]
    exact ⟨hok, by rw [hok]; rfl⟩
  · unfold getBookById
    split
    · split <;> simp [getStatus]
    · simp [getStatus]

/-- Witness for C6: a malformed id gives 400, and the stored book is
served with 200. -/
theorem getBookById_trichotomy_witness :
    getStatus (getBookById exDb1 "nope") = 400 ∧
    getBookById exDb1 "607f1f77bcf86cd799439001" = GetResult.ok exBook1 :=
  ⟨(getBookById_trichotomy exDb1 "nope").1 (by decide),
   ((getBookById_trichotomy exDb1 "607f1f77bcf86cd799439001").2.2.1 exBook1
     (by decide) (by decide)).1⟩

/-- C9: GET /health answers 200 regardless of the database connection
state; the state is only reported in the body's `database.status` and
`database.readyState` fields. -/
theorem health_always_200 (s t : Nat) :
    (healthHandler s).status = 200
  ∧ (healthHandler s).status = (healthHandler t).status
  ∧ (healthHandler s).readyState = s
  ∧ (healthHandler s).dbStatus = statusMessage s :=
  ⟨rfl, rfl, rfl, rfl⟩

/-- C10: both GET /books variants order `data` by creation time, newest
first — the unpaginated listing is a createdAt-descending permutation of
the whole collection, and each page of the paginated listing is
createdAt-descending as well. -/
theorem books_listing_sorted_desc (db : DB) (q : ListQuery) :
    (getAllBooksSimple db).data.Pairwise (fun x y => y.createdAt ≤ x.createdAt)
  ∧ (getAllBooksSimple db).data.Perm db.books
  ∧ (getAllBooks db q).data.Pairwise (fun x y => y.createdAt ≤ x.createdAt) := by
  refine ⟨sortBooksDesc_pairwise db.books, sortOrd_perm _ db.books, ?_⟩
  have h := sortBooksDesc_pairwise (db.books.filter (bookFilter q))
  exact h.sublist ((List.take_sublist _ _).trans (List.drop_sublist _ _))

/-- C7 counterexample: the claim says the `isbn` search returns the books
whose isbn contains the (normalized) query as a case-insensitive
substring.  With `q = "0743"`, `exBook1.isbn = "9780743273565"` does
contain the query, yet the handler returns the empty list — the isbn
branch filters by exact equality with the normalized query, not by
substring. -/
theorem search_isbn_not_substring_cex :
    searchBooks exDb1 "0743" "isbn" = SearchResult.ok []
  ∧ exBook1 ∈ exDb1.books
  ∧ isSubstrCI "0743" exBook1.isbn = true
  ∧ ¬ searchData (searchBooks exDb1 "0743" "isbn") =
      exDb1.books.filter (fun b => isSubstrCI "0743" b.isbn) := by decide

/-- C7 (amended): for a non-empty query, `title` and `genre` searches
return exactly the books whose field contains the query as a
case-insensitive substring; the `isbn` search returns exactly the books
whose isbn equals the hyphen/whitespace-normalized query; and the
`authorName` search returns exactly the books whose populated author has
a first or last name containing the query case-insensitively. -/
theorem search_semantics (db : DB) (q : String) (hq : ¬ q = "") (b : Book) :
    (b ∈ searchData (searchBooks db q "title") ↔
      b ∈ db.books ∧ isSubstrCI q b.title = true)
  ∧ (b ∈ searchData (searchBooks db q "genre") ↔
      b ∈ db.books ∧ isSubstrCI q b.genre = true)
  ∧ (b ∈ searchData (searchBooks db q "isbn") ↔
      b ∈ db.books ∧ b.isbn = normalizeIsbn q)
  ∧ (b ∈ searchData (searchBooks db q "authorName") ↔
      b ∈ db.books ∧ ∃ a, db.authors.find? (fun x => x.id = b.author) = some a ∧
        authorMatches q a = true) := by
  have htitle : searchBooks db q "title" =
      SearchResult.ok (sortBooksTitle (db.books.filter (fun b2 => isSubstrCI q b2.title))) := by
    unfold searchBooks
    rw [if_neg hq, if_neg (by decide), if_neg (by decide), if_neg (by decide)]
  have hgenre : searchBooks db q "genre" =
      SearchResult.ok (sortBooksTitle (db.books.filter (fun b2 => isSubstrCI q b2.genre))) := by
    unfold searchBooks
    rw [if_neg hq, if_neg (by decide), if_pos rfl]
  have hisbn : searchBooks db q "isbn" =
      SearchResult.ok (sortBooksTitle (db.books.filter (fun b2 => b2.isbn = normalizeIsbn q))) := by
    unfold searchBooks
    rw [if_neg hq, if_neg (by decide), if_neg (by decide), if_pos rfl]
  have hauth : searchBooks db q "authorName" =
      SearchResult.ok (db.books.filter (fun b2 =>
        match db.authors.find? (fun a => a.id = b2.author) with
        | some a => authorMatches q a
        | none => false)) := by
    unfold searchBooks
    rw [if_neg hq, if_pos rfl]
  refine ⟨?_, ?_, ?_, ?_⟩
  · rw [htitle]
    simp only [searchData, sortBooksTitle, mem_sortOrd, List.mem_filter]
  · rw [hgenre]
    simp only [searchData, sortBooksTitle, mem_sortOrd, List.mem_filter]
  · rw [hisbn]
    simp only [searchData, sortBooksTitle, mem_sortOrd, List.mem_filter,
      decide_eq_true_eq]
  · rw [hauth]
    simp only [searchData]
    rw [List.mem_filter]
    apply and_congr_right
    intro _
    cases hfa : db.authors.find? (fun x => x.id = b.author) with
    | none => simp [hfa]
    | some a => simp [hfa]

/-- Witness for C7 (amended): a title hit and an isbn hit (the latter via
a hyphenated query normalizing to the stored isbn). -/
theorem search_semantics_witness :
    exBook1 ∈ searchData (searchBooks exDb2 "gatsby" "title") ∧
    exBook1 ∈ searchData (searchBooks exDb2 "978-0743273565" "isbn") :=
  ⟨((search_semantics exDb2 "gatsby" (by decide) exBook1).1).mpr (by decide),
   ((search_semantics exDb2 "978-0743273565" (by decide) exBook1).2.2.1).mpr (by decide)⟩

/-- An isbn containing a stripped character (hyphen/whitespace) fails the
digit pattern. -/
lemma isbnShape_false_of_stripped {s : String}
    (hany : s.toList.any isStrippedChar = true) : isbnShape s = false := by
  obtain ⟨c, hc, hstr⟩ := List.any_eq_true.mp hany
  unfold isbnShape
  have hnd : c.isDigit = false := not_digit_of_isStrippedChar hstr
  have hall : s.toList.all Char.isDigit = false := by
    by_contra hne
    rw [Bool.not_eq_false] at hne
    have := List.all_eq_true.mp hne c hc
    rw [hnd] at this
    exact Bool.noConfusion this
  rw [hall]
  rfl

/-- A failed `all`-check over the authors produces the matching author. -/
lemma exists_of_all_false {l : List Author} {aid : String}
    (h : l.all (fun a => !(a.id = aid)) = false) : ∃ a ∈ l, a.id = aid := by
  by_contra hne
  push_neg at hne
  have hall : l.all (fun a => !(a.id = aid)) = true := by
    rw [List.all_eq_true]
    intro a ha
    simpa using hne a ha
  rw [hall] at h
  exact Bool.noConfusion h

/-- Document validation does not look at the generated id or the
timestamps, so it is invariant under them. -/
lemma bookSchemaOk_mk_indep (b1 : BookBody) (a : String) (t : Nat) (a2 : String)
    (t2 : Nat) (year : Int) :
    bookSchemaOk (mkBook b1 a t) year = bookSchemaOk (mkBook b1 a2 t2) year := rfl

/-- C2 counterexample: the claim says a POST whose isbn is the
hyphenated `"978-0-74-327356-5"` creates the book with the stored isbn
`"9780743273565"`.  The route validator requires a plain 10/13-digit
isbn, so the request is rejected with the 400 validation response, the
database is unchanged, and no book with the normalized isbn exists. -/
theorem hyphenated_isbn_rejected_cex :
    (createBook exDb0 exBodyHyphen "607f1f77bcf86cd799439009" 30 2025).1 =
      CreateResult.validationError
  ∧ (createBook exDb0 exBodyHyphen "607f1f77bcf86cd799439009" 30 2025).2 = exDb0
  ∧ normalizeIsbn "978-0-74-327356-5" = "9780743273565"
  ∧ ¬ (∃ b ∈ (createBook exDb0 exBodyHyphen "607f1f77bcf86cd799439009" 30 2025).2.books,
        b.isbn = "9780743273565") := by decide

/-- C2 (amended): a POST /books whose isbn contains a hyphen or
whitespace fails route validation with 400 and creates nothing (the
controller's hyphen-stripping is unreachable for such requests); when a
POST succeeds, the stored isbn equals the submitted isbn verbatim
(normalization is the identity on validator-accepted isbns), and
re-submitting the same payload fails with the 400 `Duplicate Entry`
naming `isbn`, leaving the database unchanged. -/
theorem isbn_normalization_amended (db : DB) (body : BookBody) (newId : String)
    (now : Nat) (year : Int) :
    ((∃ s, body.isbn = some s ∧ s.toList.any isStrippedChar = true) →
      createBook db body newId now year = (CreateResult.validationError, db))
  ∧ (∀ nb, (createBook db body newId now year).1 = CreateResult.created nb →
      body.isbn = some nb.isbn ∧
      ∀ newId2 now2,
        createBook (createBook db body newId now year).2 body newId2 now2 year =
          (CreateResult.duplicate "isbn", (createBook db body newId now year).2)) := by
  constructor
  · rintro ⟨s, hs, hany⟩
    have hshape := isbnShape_false_of_stripped hany
    have hchk : checkIsbnField body.isbn = false := by
      rw [hs]
      simp [checkIsbnField, hshape]
    have hv : validateBookOk body year = false := by
      unfold validateBookOk
      rw [hchk]
      simp
    simp [createBook, hv]
  · intro nb h
    obtain ⟨hv, hnb, hsch, _, hst, hguard⟩ := createBook_created h
    have hparts := validate_parts hv
    obtain ⟨s, hs, hshape⟩ := isbn_of_check hparts.2.2.1
    obtain ⟨aid, ha, hmid⟩ := author_of_check hparts.2.1
    have hsan : (sanitize body).isbn = some s := hs
    have hisbn1 : nb.isbn = s := by
      rw [hnb]
      show normalizeIsbn ((sanitize body).isbn.getD "") = s
      rw [hsan]
      exact normalizeIsbn_of_shape hshape
    constructor
    · rw [hisbn1]
      exact hs
    · intro newId2 now2
      have heq : jsTruthy body.author = some aid := by
        rw [ha]
        exact jsTruthy_some (isMongoId_ne_empty hmid)
      have hall2 := hguard aid heq
      have hex : ∃ a ∈ db.authors, a.id = aid := exists_of_all_false hall2
      have hsch2 : bookSchemaOk (mkBook (sanitize body) newId2 now2) year = true := by
        rw [bookSchemaOk_mk_indep (sanitize body) newId2 now2 newId now year]
        exact hsch
      have m2 : (mkBook (sanitize body) newId2 now2).isbn = s := by
        show normalizeIsbn ((sanitize body).isbn.getD "") = s
        rw [hsan]
        exact normalizeIsbn_of_shape hshape
      have m1 : (mkBook (sanitize body) newId now).isbn = s := by
        rw [← hnb]
        exact hisbn1
      have hdup2 : (createBook db body newId now year).2.books.any
          (fun b => b.isbn = (mkBook (sanitize body) newId2 now2).isbn) = true := by
        rw [hst]
        apply List.any_eq_true.mpr
        refine ⟨mkBook (sanitize body) newId now, by simp, ?_⟩
        simp [m1, m2]
      have hexd : ∃ a ∈ (createBook db body newId now year).2.authors, a.id = aid := by
        rw [hst]
        exact hex
      exact createBook_dup newId2 now2 hv ha hexd hsch2 hdup2

/-- Witness for C2 (amended): the hyphenated POST is rejected, and the
verbatim re-POST after a successful create is refused as a duplicate. -/
theorem isbn_normalization_amended_witness :
    createBook exDb0 exBodyHyphen "607f1f77bcf86cd799439009" 30 2025 =
      (CreateResult.validationError, exDb0) ∧
    createBook (createBook exDb0 exBody "607f1f77bcf86cd799439009" 30 2025).2 exBody
        "607f1f77bcf86cd79943900a" 31 2025 =
      (CreateResult.duplicate "isbn",
       (createBook exDb0 exBody "607f1f77bcf86cd799439009" 30 2025).2) :=
  ⟨(isbn_normalization_amended exDb0 exBodyHyphen "607f1f77bcf86cd799439009" 30 2025).1
    ⟨"978-0-74-327356-5", rfl, by decide⟩,
   ((isbn_normalization_amended exDb0 exBody "607f1f77bcf86cd799439009" 30 2025).2
      (mkBook (sanitize exBody) "607f1f77bcf86cd799439009" 30) (by decide)).2
      "607f1f77bcf86cd79943900a" 31⟩

/-- C3 counterexample: the claim covers every POST whose isbn equals a
stored isbn after normalization, yet (a) a duplicate submitted in
hyphenated form gets the 400 validation response, not the
duplicate-entry response naming `isbn`; (b) a duplicate whose author id
matches no Author gets `Author not found` (that guard precedes the
insert); (c) a duplicate whose publisher trims to the empty string gets
the mongoose validation response (document validation precedes the
unique-index check). -/
theorem hyphenated_duplicate_cex :
    (∃ b ∈ exDb1.books, some b.isbn = exBodyHyphenDup.isbn.map normalizeIsbn)
  ∧ createBook exDb1 exBodyHyphenDup "607f1f77bcf86cd799439009" 30 2025 =
      (CreateResult.validationError, exDb1)
  ∧ ¬ (createBook exDb1 exBodyHyphenDup "607f1f77bcf86cd799439009" 30 2025).1 =
      CreateResult.duplicate "isbn"
  ∧ createBook exDb1 { exBodyDup with author := some "507f1f77bcf86cd799439099" }
      "607f1f77bcf86cd799439009" 30 2025 = (CreateResult.authorNotFound, exDb1)
  ∧ createBook exDb1 { exBodyDup with publisher := some " " }
      "607f1f77bcf86cd799439009" 30 2025 = (CreateResult.schemaError, exDb1) := by decide

/-- C3 (amended): a POST /books passing route validation (plain-digit
isbn, so normalization is the identity) whose referenced author exists,
whose document passes mongoose validation, and whose normalized isbn
equals a stored book's isbn, fails with the 400 `Duplicate Entry`
response naming the field `isbn`, and the database is unchanged. -/
theorem duplicate_isbn_amended (db : DB) (body : BookBody) (newId : String)
    (now : Nat) (year : Int) (aid : String)
    (hv : validateBookOk body year = true)
    (ha : body.author = some aid)
    (hex : ∃ a ∈ db.authors, a.id = aid)
    (hsch : bookSchemaOk (mkBook (sanitize body) newId now) year = true)
    (hdup : ∃ b ∈ db.books, some b.isbn = body.isbn.map normalizeIsbn) :
    createBook db body newId now year = (CreateResult.duplicate "isbn", db) ∧
    createStatus (createBook db body newId now year).1 = 400 := by
  have hparts := validate_parts hv
  obtain ⟨s, hs, _⟩ := isbn_of_check hparts.2.2.1
  have hdup2 : db.books.any
      (fun b => b.isbn = (mkBook (sanitize body) newId now).isbn) = true := by
    obtain ⟨b0, hmem, hb0⟩ := hdup
    rw [hs] at hb0
    simp only [Option.map_some'] at hb0
    injection hb0 with hb1
    apply List.any_eq_true.mpr
    refine ⟨b0, hmem, ?_⟩
    have hmk : (mkBook (sanitize body) newId now).isbn = normalizeIsbn s := by
      show normalizeIsbn ((sanitize body).isbn.getD "") = _
      have hsan : (sanitize body).isbn = some s := hs
      rw [hsan]
      rfl
    simp [hmk, hb1]
  have hrun := createBook_dup newId now hv ha hex hsch hdup2
  exact ⟨hrun, by rw [hrun]; rfl⟩

/-- Witness for C3 (amended): re-posting the stored isbn verbatim is
refused as a duplicate naming `isbn`. -/
theorem duplicate_isbn_amended_witness :
    createBook exDb1 exBodyDup "607f1f77bcf86cd799439009" 30 2025 =
      (CreateResult.duplicate "isbn", exDb1) :=
  (duplicate_isbn_amended exDb1 exBodyDup "607f1f77bcf86cd799439009" 30 2025
    "507f1f77bcf86cd799439011" (by decide) rfl (by decide) (by decide) (by decide)).1

/-- C8: every successful PUT /books/:id overwrites exactly the provided
body fields with the submitted values (title/publisher/language after the
route's trim sanitizer; the isbn verbatim, because validated isbns are
plain digits and normalization fixes them), refreshes `updatedAt`, and
leaves every unprovided field, the `createdAt` stamp, the id, every other
book and the whole authors collection unchanged. -/
theorem updateBook_frame (db : DB) (i : String) (body : BookBody) (now : Nat)
    (year : Int) (nb : Book)
    (h : (updateBook db i body now year).1 = UpdateResult.updated nb) :
    updateFrameSpec db i body now year nb := by
  obtain ⟨hvv, old, hfind, hnb, hst⟩ := updateBook_updated h
  rw [Bool.and_eq_true] at hvv
  have hparts := validate_parts hvv.2
  obtain ⟨s, hs, hshape⟩ := isbn_of_check hparts.2.2.1
  refine ⟨old, hfind, ?_, ?_, ?_, ?_, ?_, ?_, ?_, ?_, ?_, ?_, ?_, ?_, ?_, ?_,
    ?_, ?_, ?_, ?_, ?_, ?_, ?_, ?_, ?_, ?_, ?_, ?_, ?_⟩
  · intro v hv2
    rw [hnb]
    simp [applyUpdate, sanitize, hv2]
  · intro hv2
    rw [hnb]
    simp [applyUpdate, sanitize, hv2]
  · intro v hv2
    rw [hnb]
    simp [applyUpdate, sanitize, hv2]
  · intro hv2
    rw [hnb]
    simp [applyUpdate, sanitize, hv2]
  · intro v hv2
    rw [hs] at hv2
    injection hv2 with hv3
    rw [hnb]
    show ((sanitize body).isbn.map normalizeIsbn).getD old.isbn = v
    have hsan : (sanitize body).isbn = some s := hs
    rw [hsan, ← hv3]
    exact normalizeIsbn_of_shape hshape
  · intro hv2
    rw [hv2] at hs
    exact absurd hs (by simp)
  · intro v hv2
    rw [hnb]
    simp [applyUpdate, sanitize, hv2]
  · intro hv2
    rw [hnb]
    simp [applyUpdate, sanitize, hv2]
  · intro v hv2
    rw [hnb]
    simp [applyUpdate, sanitize, hv2]
  · intro hv2
    rw [hnb]
    simp [applyUpdate, sanitize, hv2]
  · intro v hv2
    rw [hnb]
    simp [applyUpdate, sanitize, hv2]
  · intro hv2
    rw [hnb]
    simp [applyUpdate, sanitize, hv2]
  · intro v hv2
    rw [hnb]
    simp [applyUpdate, sanitize, hv2]
  · intro hv2
    rw [hnb]
    simp [applyUpdate, sanitize, hv2]
  · intro v hv2
    rw [hnb]
    simp [applyUpdate, sanitize, hv2]
  · intro hv2
    rw [hnb]
    simp [applyUpdate, sanitize, hv2]
  · intro v hv2
    rw [hnb]
    simp [applyUpdate, sanitize, hv2]
  · intro hv2
    rw [hnb]
    simp [applyUpdate, sanitize, hv2]
  · intro v hv2
    rw [hnb]
    simp [applyUpdate, sanitize, hv2]
  · intro hv2
    rw [hnb]
    simp [applyUpdate, sanitize, hv2]
  · intro v hv2
    rw [hnb]
    simp [applyUpdate, sanitize, hv2]
  · intro hv2
    rw [hnb]
    simp [applyUpdate, sanitize, hv2]
  · rw [hnb]
    rfl
  · rw [hnb]
    rfl
  · rw [hnb]
    rfl
  · rw [hst, hnb]
  · exact updateBook_authors db i body now year

/-- Witness for C8: a concrete successful update of the stored book. -/
theorem updateBook_frame_witness :
    updateFrameSpec exDb1 "607f1f77bcf86cd799439001" exBodyUpd 40 2025
      (applyUpdate exBook1 (sanitize exBodyUpd) 40) :=
  updateBook_frame exDb1 "607f1f77bcf86cd799439001" exBodyUpd 40 2025
    (applyUpdate exBook1 (sanitize exBodyUpd) 40) (by decide)

end BookLibrary
